import Mathlib

/-!
Shallow embedding of `src/script.js`, the author-network force-layout page:
data model, derived statistics (degree, country aggregates, top-10 colors),
scales, interaction handlers (tooltip, drag, tick clamp, resize), and the
load pipeline, together with theorems settling the specification claims.
-/

namespace AuthorNetwork

/-- A node of the input JSON document: `{ nodes:[{id,name,affiliation,country}] }`
(line 12 of `script.js`). Optional fields are `Option`; a JS empty string is
`some ""` while an absent/undefined field is `none`. -/
structure Node where
  id : String
  name : Option String := none
  affiliation : Option String := none
  country : Option String := none
deriving DecidableEq, Repr

/-- A link of the input JSON document: `{ links:[{source,target,weight}] }`
(line 12 of `script.js`). `source`/`target` hold node ids as in the raw file. -/
structure Link where
  source : String
  target : String
  weight : Option ℚ := none
deriving DecidableEq, Repr

/-- The endpoint multiset used for the degree rollup:
`links.flatMap(l => [l.source, l.target])` (line 18 of `script.js`). -/
def endpoints (links : List Link) : List String :=
  links.flatMap fun l => [l.source, l.target]

/-- One step of `d3.rollup(..., v => v.length, d => d)`: a JS `Map` keyed by the
value itself, counting occurrences. `bump m k` increments the count stored for
key `k`, appending a fresh entry (insertion order preserved, as in a JS `Map`)
when `k` is new. -/
def bump {α : Type} [DecidableEq α] : List (α × Nat) → α → List (α × Nat)
  | [], k => [(k, 1)]
  | (k', n) :: rest, k =>
      if k' = k then (k', n + 1) :: rest else (k', n) :: bump rest k

/-- `d3.rollup(xs, v => v.length, d => key d)` for a counting reducer: the
grouped counts in first-appearance order (JS `Map` iteration order). -/
def rollupCount {α : Type} [DecidableEq α] (xs : List α) : List (α × Nat) :=
  xs.foldl bump []

/-- `Map.prototype.get`: the value stored for `k`, or `none` (JS `undefined`)
when absent. -/
def mapGet {α : Type} [DecidableEq α] : List (α × Nat) → α → Option Nat
  | [], _ => none
  | (k', n) :: rest, k => if k' = k then some n else mapGet rest k

/-- The degree rollup of lines 17–21 of `script.js`:
`d3.rollup(links.flatMap(l => [l.source, l.target]), v => v.length, d => d)`. -/
def degreeMap (links : List Link) : List (String × Nat) :=
  rollupCount (endpoints links)

/-- Line 22 of `script.js` for one node: `degree.get(n.id) || 0`
(`undefined || 0` is `0`). -/
def degreeOf (links : List Link) (id : String) : Nat :=
  (mapGet (degreeMap links) id).getD 0

/-- A node together with the `degree` property that line 22 of `script.js`
attaches to it. -/
structure DNode where
  node : Node
  degree : Nat
deriving DecidableEq, Repr

/-- Lines 17–22 of `script.js`: every node receives its rolled-up degree,
defaulting to 0 when its id never occurs as an endpoint. -/
def deriveDegrees (nodes : List Node) (links : List Link) : List DNode :=
  nodes.map fun n => { node := n, degree := degreeOf links n.id }

/-- Specification-side degree, from the spec sentence: the number of link
endpoints referencing the id — one for a matching source, one for a matching
target, hence two for a self-loop. -/
def specDegree (links : List Link) (id : String) : Nat :=
  (links.map fun l =>
    (if l.source = id then 1 else 0) + (if l.target = id then 1 else 0)).sum

/-- The grouping key of line 28 of `script.js`: `d.country || 'Unknown'`.
A JS `||` falls through on every falsy value, so both an absent field
(`undefined`) and an empty string give the literal `"Unknown"`. -/
def countryKey : Option String → String
  | none => "Unknown"
  | some s => if s = "" then "Unknown" else s

/-- Lines 25–29 of `script.js`:
`d3.rollup(nodes, v => v.length, d => d.country || 'Unknown')` — the node
count per country key, in first-appearance order of the key. -/
def byCountry (nodes : List Node) : List (String × Nat) :=
  rollupCount (nodes.map fun n => countryKey n.country)

/-- The comparator of line 32 of `script.js`,
`(a, b) => d3.descending(a.n, b.n)`: sort non-increasing in the count. -/
def descCount (a b : String × Nat) : Prop :=
  b.2 ≤ a.2

instance : DecidableRel descCount :=
  fun a b => inferInstanceAs (Decidable (b.2 ≤ a.2))

instance : IsTotal (String × Nat) descCount :=
  ⟨fun a b => le_total b.2 a.2⟩

instance : IsTrans (String × Nat) descCount :=
  ⟨fun _ _ _ h1 h2 => le_trans h2 h1⟩

/-- Lines 31–32 of `script.js`: the country aggregates sorted by descending
count. JS `Array.prototype.sort` is stable, so it is modelled by a stable
sort (`List.insertionSort`); stability is proved, not assumed. -/
def sortedCountries (nodes : List Node) : List (String × Nat) :=
  List.insertionSort descCount (byCountry nodes)

/-- Line 34 of `script.js`: `new Set(sortedCountries.slice(0, 10).map(d => d.country))`,
kept as a list (the ten keys are distinct, which is proved where needed). -/
def top10 (nodes : List Node) : List String :=
  ((sortedCountries nodes).take 10).map Prod.fst

/-- `d3.schemeTableau10`, the fixed ordinal palette of line 38. -/
def schemeTableau10 : List String :=
  ["#4e79a7", "#f28e2c", "#e15759", "#76b7b2", "#59a14f",
   "#edc949", "#af7aa1", "#ff9da7", "#9c755f", "#bab0ab"]

/-- `FALLBACK_GRAY` of line 7 of `script.js`, for non-top-10 countries. -/
def FALLBACK_GRAY : String :=
  "#A9A9A9"

/-- Index of the first occurrence of `x`, used to model an ordinal scale
domain lookup. -/
def idxOf : List String → String → Option Nat
  | [], _ => none
  | y :: ys, x => if y = x then some 0 else (idxOf ys x).map (· + 1)

/-- `d3.scaleOrdinal().domain(dom).range(rng)` applied to `x` (lines 36–38):
a domain member at index `i` maps to `rng[i % rng.length]`. An unknown value
would be appended to the implicit domain, receiving the next range entry;
`script.js` only ever applies the scale to domain members (the fill test of
line 80 and the legend loop of line 211 both restrict to the top-10 keys), so
the stateful implicit-domain growth is collapsed to the first unseen slot. -/
def ordinalColor (dom rng : List String) (x : String) : String :=
  match idxOf dom x with
  | some i => rng.getD (i % rng.length) ""
  | none => rng.getD (dom.length % rng.length) ""

/-- The node fill of line 80 of `script.js`:
`top10.has(d.country) ? color(d.country) : FALLBACK_GRAY`. The test reads the
raw `country` field: a JS `Set` of strings never contains `undefined`, so a
node with a missing country falls to the gray even though its aggregation key
is `"Unknown"`. -/
def fillColor (nodes : List Node) (c : Option String) : String :=
  match c with
  | some s =>
      if (top10 nodes).contains s then ordinalColor (top10 nodes) schemeTableau10 s
      else FALLBACK_GRAY
  | none => FALLBACK_GRAY

/-- The color scale of lines 36–38 restricted to one country key:
domain `sortedCountries.slice(0, 10).map(d => d.country)`, range
`d3.schemeTableau10`. -/
def colorOf (nodes : List Node) (c : String) : String :=
  ordinalColor (top10 nodes) schemeTableau10 c

/-- `d3.extent(xs)`: `none` on an empty list (JS `[undefined, undefined]`),
otherwise the minimum and maximum. -/
def extent : List ℚ → Option (ℚ × ℚ)
  | [] => none
  | x :: xs => some (xs.foldl (fun p y => (min p.1 y, max p.2 y)) (x, x))

/-- `RADIUS_RANGE` of line 6 of `script.js`. -/
def RADIUS_RANGE : ℚ × ℚ :=
  (3, 12)

/-- A d3 continuous scale with transform `t` (for `d3.scaleSqrt`, `t` is the
signed square root; it is kept abstract because ℚ has no square root and every
theorem below only exercises the degenerate branch, which holds for any `t`).
d3 normalizes the transformed domain: when `t d1 - t d0` is zero the
normalizer is the constant `1/2`, otherwise `x ↦ (t x - t d0) / (t d1 - t d0)`;
the result interpolates the range linearly. -/
def scaleApply (t : ℚ → ℚ) (d0 d1 r0 r1 x : ℚ) : ℚ :=
  if t d1 - t d0 = 0 then r0 + (1 / 2) * (r1 - r0)
  else r0 + ((t x - t d0) / (t d1 - t d0)) * (r1 - r0)

/-- The degree values fed to `d3.extent(nodes, d => d.degree)` (line 42),
as rationals. -/
def nodeDegreesQ (nodes : List Node) (links : List Link) : List ℚ :=
  (deriveDegrees nodes links).map fun m => (m.degree : ℚ)

/-- The size scale of lines 41–43: domain `d3.extent` of the degrees, range
`RADIUS_RANGE`; `none` models the NaN output of a scale with an undefined
domain (no nodes). -/
def sizeFor (t : ℚ → ℚ) (degs : List ℚ) (x : ℚ) : Option ℚ :=
  match extent degs with
  | none => none
  | some (d0, d1) => some (scaleApply t d0 d1 RADIUS_RANGE.1 RADIUS_RANGE.2 x)

/-- Line 79 of `script.js` for one bound datum: `size(d.degree)`. -/
def radiusOf (t : ℚ → ℚ) (nodes : List Node) (links : List Link) (d : DNode) :
    Option ℚ :=
  sizeFor t (nodeDegreesQ nodes links) (d.degree : ℚ)

/-- One top-level statement of the data-load callback body, reduced to its
scoping behavior: the free identifiers it reads and the binding it
introduces (`none` for a pure effect statement). -/
structure Stmt where
  reads : List String
  binds : Option String
deriving DecidableEq, Repr

/-- The identifiers bound in the scope of the callback body before its first
statement runs: the callback parameter `graph` (line 10) and the outer
bindings of `script.js` and the browser globals the body mentions. The
identifier `raw` is NOT among them. -/
def callbackScope : List String :=
  ["graph", "WIDTH", "HEIGHT", "RADIUS_RANGE", "FALLBACK_GRAY",
   "d3", "document", "window"]

/-- The top-level statements of the callback body (lines 13–218 of
`script.js`), in source order, as identifier reads/bindings. Statement 0 is
line 13 (`const nodes = raw.nodes.map(...)`); the degree statistic is bound by
statement 2 and the rendered circles by statement 22. -/
def callbackStmts : List Stmt :=
  [{ reads := ["raw"], binds := some "nodes" },                               -- line 13
   { reads := ["raw"], binds := some "links" },                               -- line 14
   { reads := ["d3", "links"], binds := some "degree" },                      -- lines 17-21
   { reads := ["nodes", "degree"], binds := none },                           -- line 22
   { reads := ["d3", "nodes"], binds := some "byCountry" },                   -- lines 25-29
   { reads := ["byCountry", "d3"], binds := some "sortedCountries" },         -- lines 31-32
   { reads := ["sortedCountries"], binds := some "top10" },                   -- line 34
   { reads := ["d3", "sortedCountries"], binds := some "color" },             -- lines 36-38
   { reads := ["d3", "nodes", "RADIUS_RANGE"], binds := some "size" },        -- lines 41-43
   { reads := ["d3"], binds := some "chargeSlider" },                         -- line 46
   { reads := ["d3"], binds := some "collideSlider" },                        -- line 47
   { reads := ["d3"], binds := some "linkStrengthSlider" },                   -- line 48
   { reads := ["d3"], binds := some "chargeVal" },                            -- line 50
   { reads := ["d3"], binds := some "collideVal" },                           -- line 51
   { reads := ["d3"], binds := some "linkStrengthVal" },                      -- line 52
   { reads := [], binds := some "updateSliderLabels" },                       -- lines 54-58
   { reads := ["updateSliderLabels", "chargeVal", "chargeSlider",
               "collideVal", "collideSlider", "linkStrengthVal",
               "linkStrengthSlider"], binds := none },                        -- line 59
   { reads := ["d3"], binds := some "svg" },                                  -- line 62
   { reads := ["svg", "WIDTH", "HEIGHT"], binds := none },                    -- lines 63-64
   { reads := ["svg"], binds := some "linkG" },                               -- line 66
   { reads := ["svg"], binds := some "nodeG" },                               -- line 67
   { reads := ["linkG", "links"], binds := some "link" },                     -- lines 69-73
   { reads := ["nodeG", "nodes", "size", "top10", "color",
               "FALLBACK_GRAY"], binds := some "node" },                      -- lines 75-80
   { reads := ["d3"], binds := some "tooltip" },                              -- line 83
   { reads := ["node", "link", "nodes", "tooltip", "d3"], binds := none },    -- lines 85-123
   { reads := [], binds := some "createSimulation" },                         -- lines 127-150
   { reads := ["createSimulation", "d3", "nodes", "links",
               "linkStrengthSlider", "chargeSlider", "collideSlider",
               "WIDTH", "HEIGHT", "size", "link", "node"],
     binds := some "sim" },                                                   -- line 152
   { reads := [], binds := some "drag" },                                     -- lines 155-174
   { reads := ["node", "drag", "sim"], binds := none },                       -- line 176
   { reads := ["chargeSlider", "chargeVal", "sim", "d3"], binds := none },    -- lines 179-183
   { reads := ["collideSlider", "collideVal", "sim", "d3", "size"],
     binds := none },                                                         -- lines 185-191
   { reads := ["linkStrengthSlider", "linkStrengthVal", "sim"],
     binds := none },                                                         -- lines 193-197
   { reads := ["window", "svg", "sim", "d3", "WIDTH", "HEIGHT"],
     binds := none },                                                         -- lines 200-204
   { reads := ["d3"], binds := some "legend" },                               -- line 207
   { reads := ["legend"], binds := none },                                    -- lines 208-209
   { reads := ["sortedCountries", "legend", "color"], binds := none }]        -- lines 211-218

/-- Sequential execution of the callback statements for scoping purposes:
a statement whose reads include an unbound identifier throws a
`ReferenceError` naming it — execution stops, the environment keeps only what
was bound so far — otherwise its binding (if any) enters the environment. -/
def execStmts : List String → List Stmt → List String × Option String
  | env, [] => (env, none)
  | env, s :: rest =>
    match s.reads.find? (fun r => !env.contains r) with
    | some r => (env, some r)
    | none =>
        match s.binds with
        | some b => execStmts (b :: env) rest
        | none => execStmts env rest

/-- The outcome of the single `d3.json("authors_network.json")` fetch. -/
inductive LoadResult where
  | fulfilled
  | rejected (msg : String)
deriving DecidableEq

/-- The user-visible page state the load pipeline can touch: an inline error
message (none exists in `script.js`) and whether any graph elements were
rendered. -/
structure PageState where
  errorMessage : Option String
  graphRendered : Bool
deriving DecidableEq, Repr

/-- The page before the fetch settles: no message, nothing rendered. -/
def initialPage : PageState :=
  { errorMessage := none, graphRendered := false }

/-- The handlers attached to the fetch promise. Line 10 of `script.js` is
`d3.json(...).then(graph => {...})`: a fulfillment handler only — there is no
second `.then` argument and no `.catch` anywhere in the file. -/
structure LoadChain where
  hasFulfillHandler : Bool
  hasRejectHandler : Bool
deriving DecidableEq, Repr

/-- The promise chain of `script.js`. -/
def scriptChain : LoadChain :=
  { hasFulfillHandler := true, hasRejectHandler := false }

/-- Settling the fetch against a chain. With no rejection handler a rejection
is unhandled: no code of the page runs, the page keeps its initial state. (On
fulfillment the callback itself aborts on the `raw` reference error of line 13
— see `execStmts`/`callbackStmts` — so it also leaves the page untouched;
only the rejection branch matters here.) -/
def runLoad (chain : LoadChain) (r : LoadResult) : PageState :=
  match r with
  | .rejected msg =>
      if chain.hasRejectHandler then
        { errorMessage := some msg, graphRendered := false }
      else initialPage
  | .fulfilled => initialPage

/-- A DOM click event reduced to what the tooltip logic inspects: the element
ids on its `composedPath()`. -/
structure ClickEvent where
  path : List String
deriving DecidableEq, Repr

/-- The tooltip overlay state: visibility (the `hidden` class of lines 114 and
119) and whether the one-shot `click.tooltip` body listener is attached. -/
structure TooltipState where
  visible : Bool
  dismissInstalled : Bool
deriving DecidableEq, Repr

/-- Lines 103–108 of `script.js`: the tooltip lines — bold name (falling back
to the id only when `name` is nullish), affiliation and country only when
truthy, and always the literal degree — with the falsy entries filtered out. -/
def tooltipLines (d : DNode) : List String :=
  (["<strong>" ++ d.node.name.getD d.node.id ++ "</strong>",
    (match d.node.affiliation with
     | some a => a
     | none => ""),
    (match d.node.country with
     | some c => if c = "" then "" else "Country: " ++ c
     | none => ""),
    "Degree: " ++ toString d.degree]).filter fun s => s != ""

/-- Line 108: the lines joined with `<br/>` into the tooltip html. -/
def tooltipHtml (d : DNode) : String :=
  String.intercalate "<br/>" (tooltipLines d)

/-- Lines 110–122 of the node click handler: show the tooltip and install the
one-shot dismiss listener. -/
def onNodeClick (d : DNode) : TooltipState × String :=
  ({ visible := true, dismissInstalled := true }, tooltipHtml d)

/-- Lines 117–122: the `click.tooltip` body listener, invoked on the next
click. Its own parameter (`e` in the source) is unused: the guard reads the
captured outer `event` — the node click that installed it — whose path never
contains the tooltip element. Because the listener was added with
`once: true` (and the guarded branch also detaches it explicitly), it is
removed after this one invocation in either branch. -/
def dismissHandler (installEvent : ClickEvent) (_e : ClickEvent)
    (st : TooltipState) : TooltipState :=
  if !(installEvent.path.contains "tooltip") then
    { visible := false, dismissInstalled := false }
  else
    { st with dismissInstalled := false }

/-- Lines 145–146 of the tick handler:
`d.x = Math.max(6, Math.min(WIDTH() - 6, d.x))` and the same for `y`. -/
def tickClamp (W H : ℚ) (p : ℚ × ℚ) : ℚ × ℚ :=
  (max 6 (min (W - 6) p.1), max 6 (min (H - 6) p.2))

/-- A node as the drag behavior sees it: current position and the pinned
position `fx`/`fy` (JS `null` is `none`). -/
structure DragNode where
  x : ℚ
  y : ℚ
  fx : Option ℚ
  fy : Option ℚ
deriving DecidableEq, Repr

/-- The simulation state the handlers of `script.js` touch: energy `alpha`,
its decay target `alphaTarget`, the centering-force target, and whether the
internal timer is running. -/
structure Sim where
  alpha : ℚ
  alphaTarget : ℚ
  center : ℚ × ℚ
  running : Bool
deriving DecidableEq, Repr

/-- Lines 156–160, `dragstarted`: unless another gesture is already active,
raise the energy target to 0.3 and restart; pin the node at its current
position. -/
def dragstarted (active : Bool) (s : Sim) (d : DragNode) : Sim × DragNode :=
  (if active then s else { s with alphaTarget := 0.3, running := true },
   { d with fx := some d.x, fy := some d.y })

/-- Lines 161–164, `dragged`: move the pinned position to the pointer. -/
def dragged (ex ey : ℚ) (d : DragNode) : DragNode :=
  { d with fx := some ex, fy := some ey }

/-- Lines 165–169, `dragended`: unless another gesture is still active,
restore the energy target to 0; clear the pinned position. -/
def dragended (active : Bool) (s : Sim) (d : DragNode) : Sim × DragNode :=
  (if active then s else { s with alphaTarget := 0 },
   { d with fx := none, fy := none })

/-- Lines 200–204, the resize listener: replace the centering force with
`d3.forceCenter(WIDTH() / 2, HEIGHT() / 2)` and `sim.alpha(0.3).restart()`. -/
def resizeHandler (w h : ℚ) (s : Sim) : Sim :=
  { s with center := (w / 2, h / 2), alpha := 0.3, running := true }

end AuthorNetwork

namespace AuthorNetwork

theorem mapGet_bump {α : Type} [DecidableEq α] (m : List (α × Nat)) (k' k : α) :
    (mapGet (bump m k') k).getD 0 =
      (mapGet m k).getD 0 + (if k' = k then 1 else 0) := by
  induction m with
  | nil =>
      by_cases h : k' = k <;> simp [bump, mapGet, h]
  | cons e rest ih =>
      obtain ⟨k₀, n₀⟩ := e
      by_cases h0 : k₀ = k'
      · subst h0
        by_cases h : k₀ = k <;> simp [bump, mapGet, h]
      · by_cases h : k₀ = k
        · subst h
          have : ¬ k' = k₀ := fun hc => h0 hc.symm
          simp [bump, h0, mapGet, this]
        · simp [bump, h0, mapGet, h, ih]

theorem mapGet_foldl_bump {α : Type} [DecidableEq α] (xs : List α)
    (m : List (α × Nat)) (k : α) :
    (mapGet (xs.foldl bump m) k).getD 0 = (mapGet m k).getD 0 + xs.count k := by
  induction xs generalizing m with
  | nil => simp
  | cons x xs ih =>
      rw [List.foldl_cons, ih, mapGet_bump, List.count_cons]
      have : (if x = k then 1 else 0) = (if x == k then 1 else 0) := by
        by_cases h : x = k <;> simp [h]
      omega

theorem mapGet_rollupCount {α : Type} [DecidableEq α] (xs : List α) (k : α) :
    (mapGet (rollupCount xs) k).getD 0 = xs.count k := by
  simp [rollupCount, mapGet_foldl_bump, mapGet]

theorem count_endpoints (links : List Link) (id : String) :
    (endpoints links).count id = specDegree links id := by
  induction links with
  | nil => simp [endpoints, specDegree]
  | cons l ls ih =>
      simp only [endpoints, List.flatMap_cons, List.count_append, specDegree,
        List.map_cons, List.sum_cons] at *
      rw [ih]
      by_cases hs : l.source = id <;> by_cases ht : l.target = id <;>
        simp [hs, ht, List.count_cons, List.count_nil]

theorem degreeOf_eq_specDegree (links : List Link) (id : String) :
    degreeOf links id = specDegree links id := by
  rw [degreeOf, degreeMap, mapGet_rollupCount, count_endpoints]

/-- C3: the derived degree of every node equals the number of link endpoints
(source or target occurrences) referencing that node id — a self-loop
contributes twice, a node referenced by no link gets 0 — and with an empty
links list every node gets degree 0. -/
theorem degrees_match_endpoint_counts (nodes : List Node) (links : List Link) :
    deriveDegrees nodes links
        = nodes.map (fun n => { node := n, degree := specDegree links n.id }) ∧
      deriveDegrees nodes [] = nodes.map (fun n => { node := n, degree := 0 }) := by
  constructor
  · simp [deriveDegrees, degreeOf_eq_specDegree]
  · simp [deriveDegrees, degreeOf, degreeMap, endpoints, rollupCount, mapGet]

theorem extent_const (c : ℚ) :
    ∀ degs : List ℚ, degs ≠ [] → (∀ d ∈ degs, d = c) → extent degs = some (c, c) := by
  intro degs hne hall
  match degs with
  | x :: xs =>
      have hx : x = c := hall x (by simp)
      subst hx
      have : ∀ ys : List ℚ, (∀ d ∈ ys, d = x) →
          ys.foldl (fun p y => (min p.1 y, max p.2 y)) (x, x) = (x, x) := by
        intro ys
        induction ys with
        | nil => simp
        | cons y ys ih =>
            intro h
            have hy : y = x := h y (by simp)
            subst hy
            simp only [List.foldl_cons, min_self, max_self]
            exact ih fun d hd => h d (by simp [hd])
      rw [extent, this xs fun d hd => hall d (by simp [hd])]

/-- C4: when every node has the same degree (in particular with an empty links
list, where every degree is 0), the size scale takes its degenerate branch —
no division by the zero domain span occurs — and every node gets the midpoint
of `RADIUS_RANGE = (3, 12)`, i.e. `15/2 = 7.5`, whatever the square-root
transform does. -/
theorem radius_midpoint_when_all_degrees_equal (t : ℚ → ℚ) (nodes : List Node)
    (links : List Link) (c : ℚ) (hne : nodes ≠ [])
    (hall : ∀ x ∈ nodeDegreesQ nodes links, x = c) :
    ∀ d ∈ deriveDegrees nodes links,
      radiusOf t nodes links d = some ((RADIUS_RANGE.1 + RADIUS_RANGE.2) / 2) := by
  intro d _
  have hlistne : nodeDegreesQ nodes links ≠ [] := by
    simp [nodeDegreesQ, deriveDegrees, hne]
  rw [radiusOf, sizeFor, extent_const c _ hlistne hall]
  simp only [scaleApply, sub_self, if_pos rfl, RADIUS_RANGE]
  norm_num

/-- Witness for C4 at a one-node, zero-link input: the single node has degree
0 and receives radius `15/2`. -/
theorem radius_midpoint_when_all_degrees_equal_witness :
    radiusOf (fun q => q) [{ id := "a" }] [] { node := { id := "a" }, degree := 0 }
      = some ((RADIUS_RANGE.1 + RADIUS_RANGE.2) / 2) :=
  radius_midpoint_when_all_degrees_equal (fun q => q) [{ id := "a" }] [] 0
    (by simp)
    (by simp [nodeDegreesQ, deriveDegrees, degreeOf, degreeMap, endpoints,
      rollupCount, mapGet])
    { node := { id := "a" }, degree := 0 }
    (by simp [deriveDegrees, degreeOf, degreeMap, endpoints, rollupCount, mapGet])

theorem foldl_bump_const {α : Type} [DecidableEq α] (c : α) :
    ∀ (xs : List α) (n : Nat), (∀ x ∈ xs, x = c) →
      xs.foldl bump [(c, n)] = [(c, n + xs.length)] := by
  intro xs
  induction xs with
  | nil => simp
  | cons x rest ih =>
      intro n h
      have hx : x = c := h x (by simp)
      subst hx
      rw [List.foldl_cons, show bump [(x, n)] x = [(x, n + 1)] by simp [bump],
        ih (n + 1) fun d hd => h d (by simp [hd])]
      simp only [List.length_cons]
      rw [show n + (rest.length + 1) = n + 1 + rest.length by omega]

theorem rollupCount_const {α : Type} [DecidableEq α] (c : α) (xs : List α)
    (hne : xs ≠ []) (hall : ∀ x ∈ xs, x = c) :
    rollupCount xs = [(c, xs.length)] := by
  match xs with
  | x :: rest =>
      have hx : x = c := hall x (by simp)
      subst hx
      rw [rollupCount, List.foldl_cons,
        show bump ([] : List (α × Nat)) x = [(x, 1)] from rfl,
        foldl_bump_const x rest 1 fun d hd => hall d (by simp [hd])]
      simp [Nat.add_comm]

/-- C5 counterexample: one node whose `country` field is absent. The shared
country is the `"Unknown"` default, the top-10 set has exactly one entry, yet
the node is painted the fallback gray (which is not a palette color), because
the fill test of line 80 reads the raw field, not the `"Unknown"` key. -/
theorem shared_unknown_country_gets_fallback :
    (top10 [{ id := "a" }]).length = 1 ∧
      fillColor [{ id := "a" }] none = FALLBACK_GRAY ∧
      FALLBACK_GRAY ∉ schemeTableau10 := by
  decide

/-- C5 amended: when every node carries the same literal non-empty country
string, the top-10 set is exactly that one country and every node receives the
same first palette color, which is not the fallback gray. (When the shared
country is only the `"Unknown"` default for missing fields, the top-10 set
still has one entry but every node gets the fallback gray instead.) -/
theorem shared_literal_country_same_color (nodes : List Node) (c : String)
    (hne : nodes ≠ []) (hc : c ≠ "")
    (hall : ∀ n ∈ nodes, n.country = some c) :
    top10 nodes = [c] ∧
      (∀ n ∈ nodes, fillColor nodes n.country = schemeTableau10.getD 0 "") ∧
      schemeTableau10.getD 0 "" ≠ FALLBACK_GRAY := by
  have hkeys : ∀ x ∈ nodes.map fun n => countryKey n.country, x = c := by
    intro x hx
    obtain ⟨n, hn, rfl⟩ := List.mem_map.mp hx
    rw [hall n hn]
    simp [countryKey, hc]
  have hby : byCountry nodes = [(c, nodes.length)] := by
    rw [byCountry, rollupCount_const c _ (by simp [hne]) hkeys, List.length_map]
  have hsorted : sortedCountries nodes = [(c, nodes.length)] := by
    rw [sortedCountries, hby]
    simp [List.insertionSort, List.orderedInsert]
  have htop : top10 nodes = [c] := by
    rw [top10, hsorted]
    simp
  refine ⟨htop, fun n hn => ?_, by decide⟩
  rw [hall n hn, fillColor]
  simp only [htop]
  rw [if_pos (by simp)]
  simp [ordinalColor, idxOf, schemeTableau10]

/-- Witness for the amended C5 at a two-node input sharing the literal country
`"DE"`. -/
theorem shared_literal_country_same_color_witness :
    top10 [{ id := "a", country := some "DE" }, { id := "b", country := some "DE" }]
        = ["DE"] ∧
      (∀ n ∈ [{ id := "a", country := some "DE" },
          ({ id := "b", country := some "DE" } : Node)],
        fillColor [{ id := "a", country := some "DE" },
            { id := "b", country := some "DE" }] n.country
          = schemeTableau10.getD 0 "") ∧
      schemeTableau10.getD 0 "" ≠ FALLBACK_GRAY :=
  shared_literal_country_same_color
    [{ id := "a", country := some "DE" }, { id := "b", country := some "DE" }]
    "DE" (by simp) (by simp) (by decide)

theorem filter_orderedInsert_eq (x : String × Nat) (l : List (String × Nat))
    (c : Nat) (hx : x.2 = c) :
    (List.orderedInsert descCount x l).filter (fun e => e.2 == c)
      = x :: l.filter (fun e => e.2 == c) := by
  induction l with
  | nil => simp [List.orderedInsert, hx]
  | cons y ys ih =>
      by_cases h : descCount x y
      · simp [List.orderedInsert, h, List.filter_cons, hx]
      · have hy : ¬ y.2 = c := by
          intro hyc
          exact h (by unfold descCount; omega)
        simp [List.orderedInsert, h, List.filter_cons, hy, ih]

theorem filter_orderedInsert_ne (x : String × Nat) (l : List (String × Nat))
    (c : Nat) (hx : ¬ x.2 = c) :
    (List.orderedInsert descCount x l).filter (fun e => e.2 == c)
      = l.filter (fun e => e.2 == c) := by
  induction l with
  | nil => simp [List.orderedInsert, hx]
  | cons y ys ih =>
      by_cases h : descCount x y
      · simp [List.orderedInsert, h, List.filter_cons, hx]
      · simp [List.orderedInsert, h, List.filter_cons, ih]

theorem filter_insertionSort_count (c : Nat) (l : List (String × Nat)) :
    (List.insertionSort descCount l).filter (fun e => e.2 == c)
      = l.filter (fun e => e.2 == c) := by
  induction l with
  | nil => simp
  | cons x xs ih =>
      simp only [List.insertionSort]
      by_cases hx : x.2 = c
      · rw [filter_orderedInsert_eq x _ c hx, ih, List.filter_cons]
        simp [hx]
      · rw [filter_orderedInsert_ne x _ c hx, ih, List.filter_cons]
        simp [hx]

theorem mem_bump_fst {α : Type} [DecidableEq α] (m : List (α × Nat)) (k x : α) :
    x ∈ (bump m k).map Prod.fst ↔ x ∈ m.map Prod.fst ∨ x = k := by
  induction m with
  | nil => simp [bump]
  | cons e rest ih =>
      obtain ⟨k₀, n₀⟩ := e
      by_cases h : k₀ = k
      · subst h
        simp [bump]
        tauto
      · simp [bump, h, ih]
        tauto

theorem nodup_bump_fst {α : Type} [DecidableEq α] (m : List (α × Nat)) (k : α)
    (h : (m.map Prod.fst).Nodup) : ((bump m k).map Prod.fst).Nodup := by
  induction m with
  | nil => simp [bump]
  | cons e rest ih =>
      obtain ⟨k₀, n₀⟩ := e
      simp only [List.map_cons, List.nodup_cons] at h
      by_cases hk : k₀ = k
      · subst hk
        have hb : bump ((k₀, n₀) :: rest) k₀ = (k₀, n₀ + 1) :: rest := by
          simp [bump]
        rw [hb, List.map_cons, List.nodup_cons]
        exact h
      · simp only [bump, hk, if_false, List.map_cons, List.nodup_cons]
        refine ⟨fun hmem => ?_, ih h.2⟩
        rcases (mem_bump_fst rest k k₀).mp hmem with h1 | h1
        · exact h.1 h1
        · exact hk h1

theorem nodup_foldl_bump {α : Type} [DecidableEq α] (xs : List α) :
    ∀ m : List (α × Nat), (m.map Prod.fst).Nodup →
      ((xs.foldl bump m).map Prod.fst).Nodup := by
  induction xs with
  | nil => intro m h; simpa using h
  | cons x xs ih =>
      intro m h
      rw [List.foldl_cons]
      exact ih _ (nodup_bump_fst m x h)

theorem nodup_rollup_keys {α : Type} [DecidableEq α] (xs : List α) :
    ((rollupCount xs).map Prod.fst).Nodup :=
  nodup_foldl_bump xs [] (by simp)

theorem mem_foldl_bump_fst {α : Type} [DecidableEq α] (xs : List α) :
    ∀ (m : List (α × Nat)) (x : α), x ∈ (xs.foldl bump m).map Prod.fst →
      x ∈ m.map Prod.fst ∨ x ∈ xs := by
  induction xs with
  | nil =>
      intro m x h
      exact Or.inl h
  | cons a as ih =>
      intro m x h
      rw [List.foldl_cons] at h
      rcases ih (bump m a) x h with h1 | h1
      · rcases (mem_bump_fst m a x).mp h1 with h2 | h2
        · exact Or.inl h2
        · exact Or.inr (by simp [h2])
      · exact Or.inr (by simp [h1])

theorem mem_rollup_keys {α : Type} [DecidableEq α] (xs : List α) (x : α)
    (h : x ∈ (rollupCount xs).map Prod.fst) : x ∈ xs := by
  rcases mem_foldl_bump_fst xs [] x h with h1 | h1
  · simp at h1
  · exact h1

theorem nodup_sorted_keys (nodes : List Node) :
    ((sortedCountries nodes).map Prod.fst).Nodup := by
  have hperm : List.Perm (sortedCountries nodes) (byCountry nodes) :=
    List.perm_insertionSort _ _
  exact ((hperm.map Prod.fst).nodup_iff).mpr (nodup_rollup_keys _)

theorem nodup_top10 (nodes : List Node) : (top10 nodes).Nodup := by
  rw [top10, List.map_take]
  exact (nodup_sorted_keys nodes).sublist (List.take_sublist _ _)

theorem top10_length_le (nodes : List Node) : (top10 nodes).length ≤ 10 := by
  simp only [top10, List.length_map, List.length_take]
  omega

theorem mem_top10_is_key (nodes : List Node) (x : String)
    (hx : x ∈ top10 nodes) : ∃ n ∈ nodes, x = countryKey n.country := by
  have h1 : x ∈ (sortedCountries nodes).map Prod.fst := by
    rw [top10, List.map_take] at hx
    exact (List.take_sublist _ _).mem hx
  have h2 : x ∈ (byCountry nodes).map Prod.fst :=
    ((List.perm_insertionSort descCount (byCountry nodes)).map Prod.fst).mem_iff.mp h1
  have h3 : x ∈ nodes.map fun n => countryKey n.country :=
    mem_rollup_keys _ x h2
  obtain ⟨n, hn, hkey⟩ := List.mem_map.mp h3
  exact ⟨n, hn, hkey.symm⟩

theorem countryKey_ne_empty (c : Option String) : countryKey c ≠ "" := by
  cases c with
  | none => simp [countryKey]
  | some s =>
      by_cases h : s = "" <;> simp [countryKey, h]

theorem idxOf_get :
    ∀ (l : List String), l.Nodup → ∀ (i : Nat) (h : i < l.length),
      idxOf l (l.get ⟨i, h⟩) = some i := by
  intro l
  induction l with
  | nil =>
      intro _ i h
      simp at h
  | cons y ys ih =>
      intro hnd i h
      cases i with
      | zero => simp [idxOf]
      | succ j =>
          have hj : j < ys.length := by simpa using h
          have hget : (y :: ys).get ⟨j + 1, h⟩ = ys.get ⟨j, hj⟩ := rfl
          have hne : ¬ y = (y :: ys).get ⟨j + 1, h⟩ := by
            rw [hget]
            intro hEq
            exact (List.nodup_cons.mp hnd).1 (hEq ▸ List.get_mem ys j hj)
          rw [idxOf, if_neg hne, hget, ih (List.nodup_cons.mp hnd).2 j hj]
          rfl

theorem map_ordinalColor_eq_take (dom rng : List String) (hnd : dom.Nodup)
    (hle : dom.length ≤ rng.length) :
    dom.map (ordinalColor dom rng) = rng.take dom.length := by
  apply List.ext_getElem
  · simp only [List.length_map, List.length_take]
    omega
  · intro i h1 h2
    have hi : i < dom.length := by simpa using h1
    have hir : i < rng.length := lt_of_lt_of_le hi hle
    have hidx : idxOf dom (dom.get ⟨i, hi⟩) = some i := idxOf_get dom hnd i hi
    rw [List.get_eq_getElem] at hidx
    simp only [List.getElem_map, List.getElem_take]
    rw [ordinalColor, hidx]
    show rng.getD (i % rng.length) "" = _
    rw [Nat.mod_eq_of_lt hir, List.getD_eq_getElem rng "" hir]

/-- C6: country aggregates are sorted by descending node count, ties keep the
first-appearance (rollup iteration) order — witnessed by the filter equation:
the entries of any fixed count appear in the sorted list exactly as they do in
the rollup output; the top-10 keys receive, in sorted order, the leading
entries of the fixed Tableau-10 palette, hence pairwise distinct colors; and
any node whose country falls outside the top 10 (or is missing) is filled with
the single fallback gray. -/
theorem countries_sorted_top10_colored (nodes : List Node) :
    (sortedCountries nodes).Sorted descCount ∧
      (∀ c : Nat, (sortedCountries nodes).filter (fun e => e.2 == c)
        = (byCountry nodes).filter (fun e => e.2 == c)) ∧
      (top10 nodes).map (colorOf nodes) = schemeTableau10.take (top10 nodes).length ∧
      ((top10 nodes).map (colorOf nodes)).Nodup ∧
      (∀ c : Option String, countryKey c ∉ top10 nodes →
        fillColor nodes c = FALLBACK_GRAY) := by
  have htake : (top10 nodes).map (colorOf nodes)
      = schemeTableau10.take (top10 nodes).length := by
    have h10 : (top10 nodes).length ≤ schemeTableau10.length := by
      rw [show schemeTableau10.length = 10 from rfl]
      exact top10_length_le nodes
    exact map_ordinalColor_eq_take (top10 nodes) schemeTableau10
      (nodup_top10 nodes) h10
  refine ⟨List.sorted_insertionSort descCount (byCountry nodes),
    fun c => filter_insertionSort_count c (byCountry nodes),
    htake, ?_, ?_⟩
  · rw [htake]
    exact (show schemeTableau10.Nodup by decide).sublist
      (List.take_sublist _ _)
  · intro c hc
    match c with
    | none => rfl
    | some s =>
        have hs : ¬ ((top10 nodes).contains s = true) := by
          intro hmem
          have hmem' : s ∈ top10 nodes := by simpa using hmem
          by_cases hse : s = ""
          · subst hse
            obtain ⟨n, _, hkey⟩ := mem_top10_is_key nodes "" hmem'
            exact countryKey_ne_empty n.country hkey.symm
          · exact hc (by simpa [countryKey, hse] using hmem')
        show (if (top10 nodes).contains s then
            ordinalColor (top10 nodes) schemeTableau10 s else FALLBACK_GRAY)
          = FALLBACK_GRAY
        rw [if_neg hs]

/-- Witness for C6 at an eleven-country input: the country of the eleventh
node (one node per country, ties kept in input order) is outside the top 10
and its node is filled with the fallback gray. -/
theorem countries_sorted_top10_colored_witness :
    fillColor
      [{ id := "a0", country := some "K0" }, { id := "a1", country := some "K1" },
       { id := "a2", country := some "K2" }, { id := "a3", country := some "K3" },
       { id := "a4", country := some "K4" }, { id := "a5", country := some "K5" },
       { id := "a6", country := some "K6" }, { id := "a7", country := some "K7" },
       { id := "a8", country := some "K8" }, { id := "a9", country := some "K9" },
       { id := "a10", country := some "K10" }]
      (some "K10") = FALLBACK_GRAY :=
  (countries_sorted_top10_colored
      [{ id := "a0", country := some "K0" }, { id := "a1", country := some "K1" },
       { id := "a2", country := some "K2" }, { id := "a3", country := some "K3" },
       { id := "a4", country := some "K4" }, { id := "a5", country := some "K5" },
       { id := "a6", country := some "K6" }, { id := "a7", country := some "K7" },
       { id := "a8", country := some "K8" }, { id := "a9", country := some "K9" },
       { id := "a10", country := some "K10" }]).2.2.2.2
    (some "K10") (by decide)

/-- C1: the callback body of line 10 is well-defined only if `raw` is bound.
As written — `raw` is not in the callback scope — every successful load throws
a `ReferenceError` for `raw` at the very first statement (line 13), with no
binding performed: no statistic (`degree`, statement 2) is derived and no
element (`node`, statement 22) is rendered. Were `raw` bound, the whole body
would resolve, completing initialization and rendering. -/
theorem callback_reference_error :
    (execStmts callbackScope callbackStmts).2 = some "raw" ∧
      (execStmts callbackScope callbackStmts).1 = callbackScope ∧
      "raw" ∉ callbackScope ∧
      (execStmts ("raw" :: callbackScope) callbackStmts).2 = none := by
  decide

/-- C2 (code-bug evidence): the fetch promise of line 10 carries a fulfillment
handler only; when the load is rejected no handler runs, so the page shows no
inline message — the failure is not surfaced — and nothing is rendered. -/
theorem load_failure_not_surfaced (msg : String) :
    (runLoad scriptChain (.rejected msg)).errorMessage = none ∧
      (runLoad scriptChain (.rejected msg)).graphRendered = false ∧
      scriptChain.hasRejectHandler = false :=
  ⟨rfl, rfl, rfl⟩

/-- C7 (code-bug evidence): clicking a node shows a tooltip whose lines
contain the literal degree, and installs the one-shot dismiss listener; but on
the concrete next click INSIDE the tooltip element (path `[tooltip, body]`)
the listener still hides the tooltip, because its guard reads the captured
node-click event (path `[circle, svg, body]`, never containing the tooltip)
instead of its own parameter. -/
theorem tooltip_dismissed_by_inside_click :
    (onNodeClick { node := { id := "a" }, degree := 3 }).1
        = { visible := true, dismissInstalled := true } ∧
      "Degree: 3" ∈ tooltipLines { node := { id := "a" }, degree := 3 } ∧
      dismissHandler { path := ["circle", "svg", "body"] }
          { path := ["tooltip", "body"] }
          { visible := true, dismissInstalled := true }
        = { visible := false, dismissInstalled := false } := by
  decide

/-- C8: on every tick the rendered position is clamped into
`[6, width − 6] × [6, height − 6]` — at least a 6px margin from every edge —
whatever position the simulation or an out-of-viewport drag produced, for any
viewport at least 12px in each dimension (below that the margins are
unsatisfiable). -/
theorem tick_clamps_into_viewport (W H x y : ℚ) (hW : 12 ≤ W) (hH : 12 ≤ H) :
    6 ≤ (tickClamp W H (x, y)).1 ∧ (tickClamp W H (x, y)).1 ≤ W - 6 ∧
      6 ≤ (tickClamp W H (x, y)).2 ∧ (tickClamp W H (x, y)).2 ≤ H - 6 :=
  ⟨le_max_left _ _, max_le (by linarith) (min_le_left _ _),
   le_max_left _ _, max_le (by linarith) (min_le_left _ _)⟩

/-- Witness for C8: an 800×600 viewport with a node dragged to (−50, 10000)
renders clamped inside the margins. -/
theorem tick_clamps_into_viewport_witness :
    6 ≤ (tickClamp 800 600 (-50, 10000)).1 ∧
      (tickClamp 800 600 (-50, 10000)).1 ≤ 800 - 6 ∧
      6 ≤ (tickClamp 800 600 (-50, 10000)).2 ∧
      (tickClamp 800 600 (-50, 10000)).2 ≤ 600 - 6 :=
  tick_clamps_into_viewport 800 600 (-50) 10000 (by norm_num) (by norm_num)

/-- C9: the drag protocol — pointer-down pins `(fx, fy)` at the current
position and (no other gesture active) raises the energy target to 0.3 and
restarts; drag moves the pin to the pointer; pointer-up clears the pin to
`null` and restores the energy target to 0. -/
theorem drag_fix_release_protocol (s : Sim) (d : DragNode) (ex ey : ℚ) :
    (dragstarted false s d).2.fx = some d.x ∧
      (dragstarted false s d).2.fy = some d.y ∧
      (dragstarted false s d).1.alphaTarget = 0.3 ∧
      (dragstarted false s d).1.running = true ∧
      (dragged ex ey (dragstarted false s d).2).fx = some ex ∧
      (dragged ex ey (dragstarted false s d).2).fy = some ey ∧
      (dragended false (dragstarted false s d).1
          (dragged ex ey (dragstarted false s d).2)).2.fx = none ∧
      (dragended false (dragstarted false s d).1
          (dragged ex ey (dragstarted false s d).2)).2.fy = none ∧
      (dragended false (dragstarted false s d).1
          (dragged ex ey (dragstarted false s d).2)).1.alphaTarget = 0 :=
  ⟨rfl, rfl, rfl, rfl, rfl, rfl, rfl, rfl, rfl⟩

/-- C10: after a resize to `w × h` the centering target is exactly
`(w / 2, h / 2)` and the simulation is restarted at the non-zero energy 0.3. -/
theorem resize_recenters_and_restarts (w h : ℚ) (s : Sim) :
    (resizeHandler w h s).center = (w / 2, h / 2) ∧
      (resizeHandler w h s).alpha = 0.3 ∧
      (0 : ℚ) < (resizeHandler w h s).alpha ∧
      (resizeHandler w h s).running = true :=
  ⟨rfl, rfl, by norm_num [resizeHandler], rfl⟩

end AuthorNetwork
